import Mathlib

/-!
Shallow embedding of the proxerscrape library (profile watchlist parser,
detail-page enricher, disk cache front, identifier extraction) together
with proofs about the embedded operations.

Go machine details are modelled as follows: `uint16` scan targets are `Nat`
with an explicit `< 65536` range check (Go's `fmt.Sscanf` reports a range
error for larger values), Go `panic`/`log.Panicf` is the `POr.panic`
constructor, returned `error` values are `Except.error`, and readers are
the strings they would yield.
-/

namespace Proxerscrape

/-- Character class of Go's RE2 `\s`, i.e. `[\t\n\f\r ]`
(src/parse.go line 331, pattern `\s{2,}`). -/
def isGoSpace (c : Char) : Bool :=
  c = ' ' || c = '\t' || c = '\n' || c = '\x0c' || c = '\r'

/-- Worker for `collapseRuns`.  In mode `false` it scans normally; when it
meets two adjacent whitespace characters it emits a single space and
switches to mode `true`, which discards the remaining whitespace of the
current run before resuming the normal scan. -/
def collapseAux : Bool → List Char → List Char
  | _, [] => []
  | true, c :: rest =>
    if isGoSpace c then collapseAux true rest else c :: collapseAux false rest
  | false, c :: rest =>
    if isGoSpace c && rest.head?.any isGoSpace then ' ' :: collapseAux true rest
    else c :: collapseAux false rest

/-- `spaceCleaner.ReplaceAllString(s, " ")` for the pattern `\s{2,}`
(src/parse.go lines 331 and 354): each maximal run of two or more
whitespace characters is replaced by a single space; runs of length one
are left untouched. -/
def collapseRuns (l : List Char) : List Char := collapseAux false l

/-- String-level wrapper for the title whitespace collapse applied by the
profile parser (src/parse.go line 354). -/
def spaceCleanerReplaceAll (s : String) : String :=
  String.mk (collapseRuns s.data)

/-- `true` when the character list contains two adjacent characters that
both belong to Go's `\s` class. -/
def hasAdjacentSpaces : List Char → Bool
  | c :: d :: rest => (isGoSpace c && isGoSpace d) || hasAdjacentSpaces (d :: rest)
  | _ => false

example : spaceCleanerReplaceAll " A  B   C " = " A B C " := by decide
example : spaceCleanerReplaceAll "My  Show" = "My Show" := by decide

/-- Value of a digit list read in base ten (all characters are assumed to
be decimal digits). -/
def digitsToNat (l : List Char) : Nat :=
  l.foldl (fun acc c => acc * 10 + (c.toNat - 48)) 0

/-- `fmt.Sscanf(s, "%d / %d", &a, &b)` with two `uint16` targets
(src/parse.go line 379): `%d` skips leading whitespace and reads a digit
run, the format space matches any amount of whitespace, and a value that
does not fit in 16 bits is a scan error (`none`). -/
def scanTwoNats (s : String) : Option (Nat × Nat) :=
  let l := s.data.dropWhile Char.isWhitespace
  let d1 := l.takeWhile Char.isDigit
  if d1 = [] then none
  else
    match (l.drop d1.length).dropWhile Char.isWhitespace with
    | '/' :: l2 =>
      let l3 := l2.dropWhile Char.isWhitespace
      let d2 := l3.takeWhile Char.isDigit
      if d2 = [] then none
      else if digitsToNat d1 < 65536 && digitsToNat d2 < 65536 then
        some (digitsToNat d1, digitsToNat d2)
      else none
    | _ => none

example : scanTwoNats "3 / 12" = some (3, 12) := by decide
example : scanTwoNats "x / 12" = none := by decide

/-! ## Data model (src/parse.go lines 17-105) -/

/-- `Season` is a string type in the source; `parseSeason` can yield the
empty season when the scan fails. -/
abbrev Season := String

/-- Winter. -/
def Q1 : Season := "Q1"
/-- Spring. -/
def Q2 : Season := "Q2"
/-- Summer. -/
def Q3 : Season := "Q3"
/-- Autumn. -/
def Q4 : Season := "Q4"

/-- `ReleasePeriod` (src/parse.go lines 58-64); `uint` years are modelled
as `Nat`. -/
structure ReleasePeriod where
  FromSeason : Season := ""
  FromYear : Nat := 0
  ToSeason : Season := ""
  ToYear : Nat := 0
deriving DecidableEq

/-- `MediaType` constant `Series` (src/parse.go line 20). -/
def Series : String := "Animeserie"
/-- `MediaType` constant `Special` (src/parse.go line 21). -/
def Special : String := "Special"
/-- `MediaType` constant `Movie` (src/parse.go line 22). -/
def Movie : String := "Movie"
/-- `Status` constant `PreAiring` (src/parse.go line 37). -/
def PreAiring : String := "Nicht erschienen (Pre-Airing)"

/-- `Media` (src/parse.go lines 70-96).  The first six fields are filled
by the profile parser, the remaining ones only by enrichment.  `MediaType`
and `Status` are string types in the source and are modelled as `String`;
the `float64` rating is modelled as `ℚ`.  The Go field `Type` is spelled
`Type'` because `Type` is a Lean keyword. -/
structure Media where
  EpisodesWatched : Nat := 0
  EpisodeCount : Nat := 0
  Title : String := ""
  Type' : String := ""
  ProxerURL : String := ""
  Status : String := ""
  EnglishTitle : String := ""
  GermanTitle : String := ""
  JapaneseTitle : String := ""
  Synonyms : List String := []
  Rating : ℚ := 0
  ReleasePeriod : ReleasePeriod := {}
  Generes : List String := []
deriving DecidableEq

/-! ## Profile parser (src/parse.go lines 300-389)

A Go `panic` aborts `ParseProfileMediaTab` without producing a return
value; `POr.panic` records this outcome together with the panic text. -/

/-- Outcome of a Go computation that can panic. -/
inductive POr (α : Type) where
  | ok : α → POr α
  | panic : String → POr α
deriving DecidableEq

/-- One data row of a profile-tab table, reduced to the pieces the parser
reads: the `title` attribute of the status `<img>` in the first cell
(`none` when the attribute is missing), the link of the second cell, the
leaf text of the type cell and the optional text node after its `<br>`,
and the text of the `<span>` in the fifth cell. -/
structure Row where
  statusTitle : Option String
  linkHref : String
  linkText : String
  typeBase : String
  typeConcrete : Option String
  countsText : String
deriving DecidableEq

/-- Message of `log.Panicf("Anime '%s' doesn't have a status.", item.Title)`
(src/parse.go line 344); `item.Title` is still empty at that point. -/
def statusPanicMsg : String := "Anime '' doesn't have a status."

/-- Stand-in for the `fmt` scan error forwarded by `panic(scanError)`
(src/parse.go line 381); the exact text depends on the malformed input. -/
def scanPanicMsg : String := "episode counts do not scan as %d / %d"

/-- Parse of one data row (src/parse.go lines 336-384): a missing status
attribute panics, the episode-count scan failure panics, otherwise the
`Media` is built with its profile-derived fields. -/
def parseRow (row : Row) : POr Media :=
  match row.statusTitle with
  | none => .panic statusPanicMsg
  | some st =>
    let typ :=
      if row.typeBase = Series || row.typeBase = Movie || row.typeBase = Special then
        row.typeBase
      else
        row.typeConcrete.getD row.typeBase
    match scanTwoNats row.countsText with
    | none => .panic scanPanicMsg
    | some (w, cnt) =>
      .ok { EpisodesWatched := w, EpisodeCount := cnt,
            Title := spaceCleanerReplaceAll row.linkText,
            Type' := typ, ProxerURL := row.linkHref, Status := st }

/-- The `rows.Each` loop (src/parse.go lines 334-386): rows with index
below two are skipped, later rows are parsed in order, and the first
panic aborts everything. -/
def parseRowsFrom (i : Nat) : List Row → POr (List Media)
  | [] => .ok []
  | r :: rest =>
    if i < 2 then parseRowsFrom (i + 1) rest
    else
      match parseRow r with
      | .panic m => .panic m
      | .ok media =>
        match parseRowsFrom (i + 1) rest with
        | .panic m => .panic m
        | .ok medias => .ok (media :: medias)

/-- Message of the runtime panic raised by `make([]*Media, 0, n)` with a
negative `n` (src/parse.go line 333). -/
def makeslicePanicMsg : String := "makeslice: cap out of range"

/-- `parseProfileTabMediaTable` (src/parse.go lines 330-389).  The
selection plumbing is abstracted into the extracted row list; with fewer
than two rows `rows.Size()-2` is negative and `make` panics before the
loop runs. -/
def parseProfileTabMediaTable (rows : List Row) : POr (List Media) :=
  if rows.length < 2 then .panic makeslicePanicMsg
  else parseRowsFrom 0 rows

/-- `WatchlistCategory` (src/parse.go lines 98-105).  Entries are the
`Media` values themselves (Go stores pointers to them). -/
structure WatchlistCategory where
  Data : List Media
  extraDataLoaded : Bool := false
deriving DecidableEq

/-- `Watchlist` (src/parse.go lines 292-298). -/
structure Watchlist where
  Watched : WatchlistCategory
  CurrentlyWatching : WatchlistCategory
  ToWatch : WatchlistCategory
  StoppedWatching : WatchlistCategory
deriving DecidableEq

/-- The four row lists sitting after the anchors `a[name=state0..3]` of a
profile-tab document.  A missing anchor, or an anchor not followed by a
table, yields an empty goquery selection and hence an empty row list. -/
structure ProfileDoc where
  state0 : List Row
  state1 : List Row
  state2 : List Row
  state3 : List Row
deriving DecidableEq

/-- `ParseProfileMediaTab` (src/parse.go lines 305-318).  The input is the
outcome of `goquery.NewDocumentFromReader`: a document-level failure is
returned to the caller as a value, while panics from the table parses
escape. -/
def ParseProfileMediaTab (input : Except String ProfileDoc) :
    POr (Except String Watchlist) :=
  match input with
  | .error e => .ok (.error e)
  | .ok doc =>
    match parseProfileTabMediaTable doc.state0 with
    | .panic m => .panic m
    | .ok watched =>
      match parseProfileTabMediaTable doc.state1 with
      | .panic m => .panic m
      | .ok currently =>
        match parseProfileTabMediaTable doc.state2 with
        | .panic m => .panic m
        | .ok toWatch =>
          match parseProfileTabMediaTable doc.state3 with
          | .panic m => .panic m
          | .ok stopped =>
            .ok (.ok { Watched := ⟨watched, false⟩,
                       CurrentlyWatching := ⟨currently, false⟩,
                       ToWatch := ⟨toWatch, false⟩,
                       StoppedWatching := ⟨stopped, false⟩ })

/-! ## Identifier extraction and disk cache
(src/cmd/watchnext/main.go lines 97-222) -/

/-- The literal part `/info/` of the pattern `/info/(\d+).*`
(src/cmd/watchnext/main.go line 98). -/
def infoPat : List Char := ['/', 'i', 'n', 'f', 'o', '/']

/-- Match of `/info/(\d+)` at the start of `l`: when `l` begins with
`/info/` followed by at least one digit, return the maximal digit run
(the greedy first capture group). -/
def matchInfoAt (l : List Char) : Option (List Char) :=
  if infoPat.isPrefixOf l then
    let ds := (l.drop infoPat.length).takeWhile Char.isDigit
    if ds = [] then none else some ds
  else none

/-- Leftmost match of the unanchored pattern `/info/(\d+).*`: try every
start position from the left and return the first capture group.  `none`
models `FindStringSubmatch` returning `nil`, in which case the source
indexes `nil[1]` and panics. -/
def findInfo : List Char → Option (List Char)
  | [] => none
  | c :: rest =>
    match matchInfoAt (c :: rest) with
    | some ds => some ds
    | none => findInfo rest

/-- `getCacheIdentifier` (src/cmd/watchnext/main.go lines 97-99) as a
total function: `some` digits on a match, `none` where the Go code
panics with an index-out-of-range on the `nil` submatch slice. -/
def getCacheIdentifier? (url : String) : Option String :=
  (findInfo url.data).map String.mk

example : getCacheIdentifier? "/info/296#top" = some "296" := by decide
example : getCacheIdentifier? "/x/info/296" = some "296" := by decide
example : getCacheIdentifier? "/abc" = none := by decide

/-- Outcome of `os.Open` on the cache file path: the file content on
success, the "not found" error, or any other I/O failure. -/
inductive OpenResult where
  | found : String → OpenResult
  | notFound : OpenResult
  | failure : String → OpenResult
deriving DecidableEq

deriving instance DecidableEq for Except

/-- What `retrieve` hands back: the returned reader or error, plus
whether the `query` function (and with it the rate limiter inside it)
was invoked. -/
structure RetrieveResult where
  result : Except String String
  queried : Bool
deriving DecidableEq

/-- `retrieve` (src/cmd/watchnext/main.go lines 169-208): an opened cache
file is returned directly; only a "not found" error proceeds to `query`;
any other open error is returned as a failure.  The on-disk write of the
fetched body (lines 188-205) is kept abstract: the returned reader over
the in-memory copy is the body itself. -/
def retrieve (file : OpenResult) (query : Except String String) : RetrieveResult :=
  match file with
  | .found content => ⟨.ok content, false⟩
  | .failure e => ⟨.error e, false⟩
  | .notFound =>
    match query with
    | .error e => ⟨.error e, true⟩
    | .ok body => ⟨.ok body, true⟩

/-- `Cache.RetrieveAnimeRawData` (src/cmd/watchnext/main.go lines
141-150): build the cache path `<identifier>.html`, then call `retrieve`
with a query that waits on the anime rate limiter.  `fs` is the state of
the cache directory; `none` is the panic inside `getCacheIdentifier`. -/
def RetrieveAnimeRawData (fs : String → OpenResult)
    (query : Except String String) (item : Media) : Option RetrieveResult :=
  (getCacheIdentifier? item.ProxerURL).map
    (fun id => retrieve (fs (id ++ ".html")) query)

/-! ## Detail parser and enrichment (src/parse.go lines 107-270) -/

/-- `fmt.Sscanf(raw, "%s %d", ...)` (src/parse.go line 275): `%s` reads a
maximal non-whitespace token, `%d` skips whitespace and reads a digit run
into a `uint`. -/
def scanTokenNat (s : String) : Option (String × Nat) :=
  let l := s.data.dropWhile Char.isWhitespace
  let tok := l.takeWhile (fun c => !c.isWhitespace)
  if tok = [] then none
  else
    let l2 := (l.drop tok.length).dropWhile Char.isWhitespace
    let ds := l2.takeWhile Char.isDigit
    if ds = [] then none else some (String.mk tok, digitsToNat ds)

/-- `parseSeason` (src/parse.go lines 272-290).  On a scan failure the
source returns `("", 0, nil)`, and the returned error is always `nil`,
so the caller's error branches are dead; the model therefore returns the
pair directly.  An unrecognised season word yields the empty season. -/
def parseSeason (seasonRaw : String) : Season × Nat :=
  match scanTokenNat seasonRaw with
  | none => ("", 0)
  | some (tok, year) =>
    let season : Season :=
      if tok = "Winter" then Q1
      else if tok = "Frühling" then Q2
      else if tok = "Sommer" then Q3
      else if tok = "Herbst" then Q4
      else ""
    (season, year)

example : parseSeason "Winter 2020" = (Q1, 2020) := by decide
example : parseSeason "Sommer 2021" = (Q3, 2021) := by decide

/-- Model of `strconv.ParseFloat` (src/parse.go line 223) restricted to
plain decimal literals, the only forms the detail pages carry: an
optional sign, an integer part and an optional fraction part, with at
least one digit in total. -/
def parseFloat? (s : String) : Option ℚ :=
  let signed : ℚ × List Char :=
    match s.data with
    | '-' :: rest => (-1, rest)
    | '+' :: rest => (1, rest)
    | l => (1, l)
  let intD := signed.2.takeWhile Char.isDigit
  match signed.2.drop intD.length with
  | [] => if intD = [] then none else some (signed.1 * digitsToNat intD)
  | '.' :: fr =>
    let frD := fr.takeWhile Char.isDigit
    if frD.length = fr.length && !(intD = [] && frD = []) then
      some (signed.1 * (digitsToNat intD + (digitsToNat frD : ℚ) / 10 ^ frD.length))
    else none
  | _ => none

example : (parseFloat? "4.3").isSome = true := by decide
example : parseFloat? "" = none := by decide

/-- One `<tbody><tr>` row of the first `table.details`, reduced to what
the parser reads: the key inside the first `<b>`, the leaf text of the
value cell, the texts of its `a.genreTag` children and the texts of its
`<a>` children (used by the `Season` case). -/
structure DetailsRow where
  key : String
  value : String
  genreTags : List String
  seasonLinks : List String
deriving DecidableEq

/-- The `Season` branch of the details switch (src/parse.go lines
191-216): at least one `<a>` child sets the from-season, a second one
also sets the to-season. -/
def applySeason (item : Media) (links : List String) : Media :=
  match links with
  | [] => item
  | first :: rest =>
    let p1 := parseSeason first
    let item1 := { item with ReleasePeriod :=
      { item.ReleasePeriod with FromSeason := p1.1, FromYear := p1.2 } }
    match rest with
    | [] => item1
    | second :: _ =>
      let p2 := parseSeason second
      { item1 with ReleasePeriod :=
        { item1.ReleasePeriod with ToSeason := p2.1, ToYear := p2.2 } }

/-- The key switch of the details-table loop (src/parse.go lines
164-218). -/
def applyDetailsRow (item : Media) (row : DetailsRow) : Media :=
  if row.key = "Englischer Titel" then { item with EnglishTitle := row.value }
  else if row.key = "Deutscher Titel" then { item with GermanTitle := row.value }
  else if row.key = "Japanischer Titel" then { item with JapaneseTitle := row.value }
  else if row.key = "Synonym" then { item with Synonyms := item.Synonyms ++ [row.value] }
  else if row.key = "Genres" then { item with Generes := item.Generes ++ row.genreTags }
  else if row.key = "Season" then applySeason item row.seasonLinks
  else item

/-- The `Each` iteration over the details rows (src/parse.go line 164). -/
def applyDetailsRows (item : Media) (rows : List DetailsRow) : Media :=
  rows.foldl applyDetailsRow item

/-- A detail page as the parser inspects it: the text of the first
`<title>`, the text of the first `<h3>` when one exists, whether the
recaptcha script tag is present, the details-table rows and the leaf
text of the first `.average` element. -/
structure DetailPage where
  title : String
  firstH3 : Option String
  hasRecaptcha : Bool
  detailsRows : List DetailsRow
  averageText : String
deriving DecidableEq

/-- `strings.Contains` on character lists: does `hay` have `needle` as a
contiguous sublist? -/
def containsSub (needle : List Char) : List Char → Bool
  | [] => needle.isEmpty
  | c :: rest => needle.isPrefixOf (c :: rest) || containsSub needle rest

/-- `strings.Contains(title, "404")` (src/parse.go line 128). -/
def titleIs404 (p : DetailPage) : Bool :=
  containsSub "404".data p.title.data

/-- The login-gate test (src/parse.go lines 141-146): a first `<h3>`
exists and its trimmed text starts with "Bitte logge dich ein". -/
def isLoginGated (p : DetailPage) : Bool :=
  match p.firstH3 with
  | none => false
  | some h => h.trim.startsWith "Bitte logge dich ein"

/-- Message of the captcha error (src/parse.go line 161). -/
def captchaMsg : String := "proxer.me ratelimit has been hit, captcha required"

/-- Stand-in for the `strconv.ParseFloat` syntax error returned at
src/parse.go line 225. -/
def ratingParseErrMsg : String := "invalid rating syntax"

/-- `populateMediaWithExtraData` (src/parse.go lines 107-230) for one
entry.  `fetch` is the combined outcome of the retriever call and
`goquery.NewDocumentFromReader`; `cacheExists` is whether the entry's
cache file exists, and invoking the invalidator sets it to `false`.
The result is the returned error value, the entry after the call and the
cache state after the call. -/
def populateMediaWithExtraData (fetch : Except String DetailPage)
    (item : Media) (cacheExists : Bool) :
    Except String Unit × Media × Bool :=
  match fetch with
  | .error e => (.error e, item, cacheExists)
  | .ok page =>
    if titleIs404 page then
      (.ok (), item, false)
    else if isLoginGated page then
      (.ok (), item, false)
    else if page.hasRecaptcha then
      (.error captchaMsg, item, cacheExists)
    else
      let item2 := applyDetailsRows item page.detailsRows
      match parseFloat? page.averageText with
      | none => (.error ratingParseErrMsg, item2, cacheExists)
      | some r => (.ok (), { item2 with Rating := r }, cacheExists)

/-- First error among the worker outcomes, in entry order (in the source
the workers race for the single error-channel slot; the orchestrator
returns an error exactly when some worker produced one). -/
def firstError (results : List (Except String Unit × Media × Bool)) : Option String :=
  results.findSome? (fun r =>
    match r.1 with
    | .error e => some e
    | .ok _ => none)

/-- `WatchlistCategory.LoadExtraData` (src/parse.go lines 235-270).  The
per-entry cache states travel in `caches`, zipped with the entries.  When
`extraDataLoaded` is already set the call returns success at once without
touching the retriever; otherwise every entry is enriched, the first
error (if any) is returned with the flag left `false`, and on overall
success the flag is set. -/
def LoadExtraData (retrieveRawData : Media → Except String DetailPage)
    (wc : WatchlistCategory) (caches : List Bool) :
    Except String Unit × WatchlistCategory × List Bool :=
  if wc.extraDataLoaded then (.ok (), wc, caches)
  else
    let results := (wc.Data.zip caches).map
      (fun mc => populateMediaWithExtraData (retrieveRawData mc.1) mc.1 mc.2)
    match firstError results with
    | some e => (.error e, ⟨results.map (fun r => r.2.1), false⟩, results.map (fun r => r.2.2))
    | none => (.ok (), ⟨results.map (fun r => r.2.1), true⟩, results.map (fun r => r.2.2))

/-! ## Lemmas about the whitespace collapse -/

/-- Does the list start with a Go-whitespace character? -/
def headSpace (l : List Char) : Bool := l.head?.any isGoSpace

theorem hasAdjacentSpaces_cons (c : Char) (l : List Char) :
    hasAdjacentSpaces (c :: l)
      = ((isGoSpace c && headSpace l) || hasAdjacentSpaces l) := by
  cases l <;> simp [hasAdjacentSpaces, headSpace]

theorem collapseAux_true_head (l : List Char) :
    headSpace (collapseAux true l) = false := by
  induction l with
  | nil => rfl
  | cons c rest ih =>
    by_cases h : isGoSpace c = true
    · simpa [collapseAux, h] using ih
    · simp only [Bool.not_eq_true] at h
      simp [collapseAux, h, headSpace]

theorem collapseAux_false_head (l : List Char) (h : headSpace l = false) :
    headSpace (collapseAux false l) = false := by
  cases l with
  | nil => rfl
  | cons c rest =>
    have hc : isGoSpace c = false := by simpa [headSpace] using h
    simp [collapseAux, hc, headSpace]

theorem collapseAux_noAdjacent (l : List Char) :
    ∀ mode, hasAdjacentSpaces (collapseAux mode l) = false := by
  induction l with
  | nil => intro mode; cases mode <;> rfl
  | cons c rest ih =>
    intro mode
    cases mode with
    | true =>
      by_cases h : isGoSpace c = true
      · simpa [collapseAux, h] using ih true
      · simp only [Bool.not_eq_true] at h
        rw [show collapseAux true (c :: rest) = c :: collapseAux false rest by
          simp [collapseAux, h]]
        rw [hasAdjacentSpaces_cons]
        simp [h, ih false]
    | false =>
      by_cases h : (isGoSpace c && rest.head?.any isGoSpace) = true
      · rw [show collapseAux false (c :: rest) = ' ' :: collapseAux true rest by
          simp [collapseAux, h]]
        rw [hasAdjacentSpaces_cons]
        simp [collapseAux_true_head rest, ih true]
      · rw [show collapseAux false (c :: rest) = c :: collapseAux false rest by
          simp [collapseAux]; intro hc hr; exact absurd (by simp [hc, hr]) h]
        rw [hasAdjacentSpaces_cons]
        by_cases hc : isGoSpace c = true
        · have hr : rest.head?.any isGoSpace = false := by
            cases hany : rest.head?.any isGoSpace
            · rfl
            · exact absurd (by simp [hc, hany]) h
          have := collapseAux_false_head rest (by simpa [headSpace] using hr)
          simp [hc, this, ih false]
        · simp only [Bool.not_eq_true] at hc
          simp [hc, ih false]

theorem collapseAux_id (l : List Char) (h : hasAdjacentSpaces l = false) :
    collapseAux false l = l := by
  induction l with
  | nil => rfl
  | cons c rest ih =>
    rw [hasAdjacentSpaces_cons] at h
    simp only [Bool.or_eq_false_iff, Bool.and_eq_false_iff] at h
    have hcond : (isGoSpace c && rest.head?.any isGoSpace) = false := by
      rcases h.1 with h1 | h1
      · simp [h1]
      · simp only [headSpace] at h1
        simp [h1]
    simp [collapseAux, hcond, ih h.2]

theorem collapseAux_true_replicate (n : Nat) :
    collapseAux true (List.replicate n ' ') = [] := by
  induction n with
  | zero => rfl
  | succ k ih => simpa [List.replicate_succ, collapseAux, isGoSpace] using ih

/-- C7 counterexample: the profile parser's whitespace collapse applied to
the raw title " A  B   C " yields " A B C " — the single leading and
trailing spaces survive because only runs of two or more are replaced —
so the claimed output "A B C" is wrong. -/
theorem title_collapse_cex :
    spaceCleanerReplaceAll " A  B   C " = " A B C "
    ∧ spaceCleanerReplaceAll " A  B   C " ≠ "A B C" :=
  ⟨by decide, by decide⟩

/-- C7 (amended): the profile parser transforms the raw title text by
replacing every run of two or more whitespace characters with a single
space and performs no other change (in particular no trimming): the
output never contains two adjacent whitespace characters, an input
without adjacent whitespace is returned unchanged, a run of n ≥ 2 spaces
becomes one space, and " A  B   C " yields " A B C " (not "A B C"). -/
theorem title_collapse_spec :
    (∀ s : String, hasAdjacentSpaces (spaceCleanerReplaceAll s).data = false)
    ∧ (∀ s : String, hasAdjacentSpaces s.data = false → spaceCleanerReplaceAll s = s)
    ∧ (∀ n : Nat, 2 ≤ n → collapseRuns (List.replicate n ' ') = [' '])
    ∧ spaceCleanerReplaceAll " A  B   C " = " A B C " := by
  refine ⟨fun s => ?_, fun s h => ?_, fun n hn => ?_, by decide⟩
  · exact collapseAux_noAdjacent s.data false
  · show String.mk (collapseAux false s.data) = s
    rw [collapseAux_id s.data h]
  · obtain ⟨k, rfl⟩ : ∃ k, n = k + 2 := ⟨n - 2, by omega⟩
    show collapseAux false (List.replicate (k + 2) ' ') = [' ']
    rw [show k + 2 = (k + 1) + 1 by omega, List.replicate_succ]
    have : collapseAux false (' ' :: List.replicate (k + 1) ' ')
        = ' ' :: collapseAux true (List.replicate (k + 1) ' ') := by
      simp [collapseAux, List.replicate_succ, isGoSpace]
    rw [this, collapseAux_true_replicate]

/-- C7 witness: the amended theorem applied at concrete inputs. -/
theorem title_collapse_spec_witness :
    hasAdjacentSpaces "A B".data = false ∧ spaceCleanerReplaceAll "A B" = "A B"
    ∧ 2 ≤ 3 ∧ collapseRuns (List.replicate 3 ' ') = [' '] :=
  ⟨by decide, title_collapse_spec.2.1 "A B" (by decide),
   by decide, title_collapse_spec.2.2.1 3 (by decide)⟩

/-! ## Lemmas about enrichment -/

/-- The profile-derived fields of two `Media` agree. -/
def sameProfile (a b : Media) : Prop :=
  a.EpisodesWatched = b.EpisodesWatched ∧ a.EpisodeCount = b.EpisodeCount ∧
  a.Title = b.Title ∧ a.Type' = b.Type' ∧ a.ProxerURL = b.ProxerURL ∧
  a.Status = b.Status

theorem sameProfile_refl (a : Media) : sameProfile a a :=
  ⟨rfl, rfl, rfl, rfl, rfl, rfl⟩

theorem sameProfile_trans {a b c : Media}
    (h1 : sameProfile a b) (h2 : sameProfile b c) : sameProfile a c := by
  obtain ⟨e1, e2, e3, e4, e5, e6⟩ := h1
  obtain ⟨f1, f2, f3, f4, f5, f6⟩ := h2
  exact ⟨e1.trans f1, e2.trans f2, e3.trans f3, e4.trans f4, e5.trans f5, e6.trans f6⟩

theorem sameProfile_applySeason (a : Media) (links : List String) :
    sameProfile (applySeason a links) a := by
  unfold applySeason
  cases links with
  | nil => exact sameProfile_refl a
  | cons first rest =>
    cases rest with
    | nil => exact ⟨rfl, rfl, rfl, rfl, rfl, rfl⟩
    | cons second t => exact ⟨rfl, rfl, rfl, rfl, rfl, rfl⟩

theorem sameProfile_applyDetailsRow (a : Media) (row : DetailsRow) :
    sameProfile (applyDetailsRow a row) a := by
  unfold applyDetailsRow
  split_ifs <;>
    first
      | exact ⟨rfl, rfl, rfl, rfl, rfl, rfl⟩
      | exact sameProfile_applySeason a row.seasonLinks

theorem sameProfile_applyDetailsRows (rows : List DetailsRow) :
    ∀ a : Media, sameProfile (applyDetailsRows a rows) a := by
  induction rows with
  | nil => intro a; exact sameProfile_refl a
  | cons r t ih =>
    intro a
    show sameProfile (applyDetailsRows (applyDetailsRow a r) t) a
    exact sameProfile_trans (ih (applyDetailsRow a r)) (sameProfile_applyDetailsRow a r)

/-- C8: frame condition of enrichment — whatever the detail-page input
and the outcome (retriever error, unusable classification, captcha
error, rating parse error or success), `populateMediaWithExtraData`
never re-assigns the profile-derived fields `EpisodesWatched`,
`EpisodeCount`, `Title`, `Type`, `ProxerURL` and `Status`; only the
detail-derived fields may change. -/
theorem populate_frame_condition (fetch : Except String DetailPage)
    (item : Media) (c : Bool) :
    sameProfile (populateMediaWithExtraData fetch item c).2.1 item := by
  cases fetch with
  | error e => exact sameProfile_refl item
  | ok p =>
    unfold populateMediaWithExtraData
    cases h1 : titleIs404 p with
    | true => simpa [h1] using sameProfile_refl item
    | false =>
      cases h2 : isLoginGated p with
      | true => simpa [h1, h2] using sameProfile_refl item
      | false =>
        cases h3 : p.hasRecaptcha with
        | true => simpa [h1, h2, h3] using sameProfile_refl item
        | false =>
          cases h4 : parseFloat? p.averageText with
          | none =>
            simpa [h1, h2, h3, h4] using
              sameProfile_applyDetailsRows p.detailsRows item
          | some r =>
            have h5 : sameProfile
                { applyDetailsRows item p.detailsRows with Rating := r }
                (applyDetailsRows item p.detailsRows) :=
              ⟨rfl, rfl, rfl, rfl, rfl, rfl⟩
            simpa [h1, h2, h3, h4] using
              sameProfile_trans h5 (sameProfile_applyDetailsRows p.detailsRows item)

/-- C3: a detail page whose `<title>` contains "404" makes the enricher
invoke the cache invalidator (the cache state becomes `false`), return
without error, and leave the entry — in particular every detail-derived
field — exactly as it was. -/
theorem dead_link_unusable (p : DetailPage) (item : Media) (c : Bool)
    (h404 : titleIs404 p = true) :
    populateMediaWithExtraData (.ok p) item c = (.ok (), item, false) := by
  simp [populateMediaWithExtraData, h404]

/-- A dead-link detail page: the `<title>` text contains "404". -/
def page404 : DetailPage :=
  { title := "404 - Seite nicht gefunden", firstH3 := none, hasRecaptcha := false,
    detailsRows := [], averageText := "4.3" }

/-- C3 witness: the theorem applied to a concrete 404 page and a
default-valued entry whose cache file exists. -/
theorem dead_link_unusable_witness :
    titleIs404 page404 = true
    ∧ populateMediaWithExtraData (.ok page404) ({} : Media) true
        = (.ok (), ({} : Media), false) :=
  ⟨by decide, dead_link_unusable page404 {} true (by decide)⟩

/-- A recaptcha interstitial page makes `populateMediaWithExtraData`
return the captcha error, leaving the entry and the cache untouched
(src/parse.go lines 160-162). -/
theorem populate_captcha (p : DetailPage) (item : Media) (c : Bool)
    (hcap : p.hasRecaptcha = true) (h404 : titleIs404 p = false)
    (hlog : isLoginGated p = false) :
    populateMediaWithExtraData (.ok p) item c = (.error captchaMsg, item, c) := by
  simp [populateMediaWithExtraData, h404, hlog, hcap]

/-- When every worker fails with the same error, `LoadExtraData` returns
that error, leaves every entry and every cache state unchanged, and does
not set `extraDataLoaded`. -/
theorem loadExtraData_all_error (r : Media → Except String DetailPage)
    (wc : WatchlistCategory) (caches : List Bool) (e : String)
    (hwc : wc.extraDataLoaded = false) (hne : wc.Data ≠ [])
    (hlen : caches.length = wc.Data.length)
    (hall : ∀ m c, populateMediaWithExtraData (r m) m c = (.error e, m, c)) :
    LoadExtraData r wc caches = (.error e, ⟨wc.Data, false⟩, caches) := by
  have hmap : ∀ l : List (Media × Bool),
      (l.map fun mc => populateMediaWithExtraData (r mc.1) mc.1 mc.2)
        = l.map fun mc => ((.error e : Except String Unit), mc.1, mc.2) := by
    intro l
    induction l with
    | nil => rfl
    | cons a t ih => simp [ih, hall a.1 a.2]
  obtain ⟨a, t, hz⟩ : ∃ a t, wc.Data.zip caches = a :: t := by
    have hlz : (wc.Data.zip caches).length = wc.Data.length := by
      rw [List.length_zip, hlen, Nat.min_self]
    cases hz : wc.Data.zip caches with
    | nil =>
      rw [hz] at hlz
      exact absurd (List.length_eq_zero.mp hlz.symm) hne
    | cons a t => exact ⟨a, t, rfl⟩
  have hfst : ((wc.Data.zip caches).map
      (fun mc => ((.error e : Except String Unit), mc.1, mc.2))).map (fun r => r.2.1)
        = wc.Data := by
    rw [List.map_map]
    exact List.map_fst_zip wc.Data caches (le_of_eq hlen.symm)
  have hsnd : ((wc.Data.zip caches).map
      (fun mc => ((.error e : Except String Unit), mc.1, mc.2))).map (fun r => r.2.2)
        = caches := by
    rw [List.map_map]
    exact List.map_snd_zip wc.Data caches (le_of_eq hlen)
  have hfe : firstError ((wc.Data.zip caches).map
      (fun mc => ((.error e : Except String Unit), mc.1, mc.2))) = some e := by
    rw [hz]
    simp [firstError, List.findSome?]
  simp only [LoadExtraData, hwc, Bool.false_eq_true, if_false, hmap, hfe, hfst, hsnd]

/-- C2: a detail page carrying the recaptcha script (and neither a 404
title nor a login banner) is a fatal error: the enricher returns the
captcha error without invoking the invalidator (the cache state is
unchanged), and a `LoadExtraData` run over such pages returns the error
with every entry and cache intact and `extraDataLoaded` still false. -/
theorem captcha_fatal_preserves_cache (p : DetailPage) (item : Media) (c : Bool)
    (wc : WatchlistCategory) (caches : List Bool)
    (hcap : p.hasRecaptcha = true) (h404 : titleIs404 p = false)
    (hlog : isLoginGated p = false) (hwc : wc.extraDataLoaded = false)
    (hne : wc.Data ≠ []) (hlen : caches.length = wc.Data.length) :
    populateMediaWithExtraData (.ok p) item c = (.error captchaMsg, item, c)
    ∧ LoadExtraData (fun _ => .ok p) wc caches
        = (.error captchaMsg, ⟨wc.Data, false⟩, caches) :=
  ⟨populate_captcha p item c hcap h404 hlog,
   loadExtraData_all_error _ wc caches captchaMsg hwc hne hlen
     (fun m cc => populate_captcha p m cc hcap h404 hlog)⟩

/-- A rate-limited detail page: the recaptcha script is present. -/
def pageCaptcha : DetailPage :=
  { title := "Proxer.me", firstH3 := none, hasRecaptcha := true,
    detailsRows := [], averageText := "" }

/-- C2 witness: the theorem applied to a concrete captcha page and a
one-entry category whose cache file exists. -/
theorem captcha_fatal_preserves_cache_witness :
    pageCaptcha.hasRecaptcha = true ∧ titleIs404 pageCaptcha = false
    ∧ isLoginGated pageCaptcha = false
    ∧ LoadExtraData (fun _ => .ok pageCaptcha) ⟨[({} : Media)], false⟩ [true]
        = (.error captchaMsg, ⟨[({} : Media)], false⟩, [true]) :=
  ⟨rfl, by decide, rfl,
   (captcha_fatal_preserves_cache pageCaptcha {} true ⟨[({} : Media)], false⟩ [true]
     rfl (by decide) rfl rfl (by simp) rfl).2⟩

/-- With `extraDataLoaded` already set, `LoadExtraData` is the identity
on the category and the cache states and succeeds at once, whatever the
retriever (src/parse.go lines 236-238). -/
theorem loadExtraData_of_loaded (r : Media → Except String DetailPage)
    (wc : WatchlistCategory) (caches : List Bool)
    (h : wc.extraDataLoaded = true) :
    LoadExtraData r wc caches = (.ok (), wc, caches) := by
  simp [LoadExtraData, h]

/-- A successful `LoadExtraData` call leaves the flag set
(src/parse.go line 267). -/
theorem loadExtraData_flag_of_ok (r : Media → Except String DetailPage)
    (wc : WatchlistCategory) (caches : List Bool)
    (h : (LoadExtraData r wc caches).1 = .ok ()) :
    (LoadExtraData r wc caches).2.1.extraDataLoaded = true := by
  cases hw : wc.extraDataLoaded with
  | true => rw [loadExtraData_of_loaded r wc caches hw]; exact hw
  | false =>
    cases hfe : firstError ((wc.Data.zip caches).map
        fun mc => populateMediaWithExtraData (r mc.1) mc.1 mc.2) with
    | some e =>
      have : LoadExtraData r wc caches
          = (.error e,
             ⟨((wc.Data.zip caches).map
                 fun mc => populateMediaWithExtraData (r mc.1) mc.1 mc.2).map
               (fun r => r.2.1), false⟩,
             ((wc.Data.zip caches).map
                 fun mc => populateMediaWithExtraData (r mc.1) mc.1 mc.2).map
               (fun r => r.2.2)) := by
        simp only [LoadExtraData, hw, Bool.false_eq_true, if_false, hfe]
      rw [this] at h
      exact absurd h (by simp)
    | none =>
      have : LoadExtraData r wc caches
          = (.ok (),
             ⟨((wc.Data.zip caches).map
                 fun mc => populateMediaWithExtraData (r mc.1) mc.1 mc.2).map
               (fun r => r.2.1), true⟩,
             ((wc.Data.zip caches).map
                 fun mc => populateMediaWithExtraData (r mc.1) mc.1 mc.2).map
               (fun r => r.2.2)) := by
        simp only [LoadExtraData, hw, Bool.false_eq_true, if_false, hfe]
      rw [this]

/-- C1: once `LoadExtraData` has returned success the flag is set, so a
second call — with any retriever at all, including one that would fail —
returns success immediately and leaves the category (every entry's
fields) and the cache states unchanged. -/
theorem loadExtraData_idempotent (r1 r2 : Media → Except String DetailPage)
    (wc : WatchlistCategory) (caches : List Bool)
    (h : (LoadExtraData r1 wc caches).1 = .ok ()) :
    LoadExtraData r2 (LoadExtraData r1 wc caches).2.1 (LoadExtraData r1 wc caches).2.2
      = (.ok (), (LoadExtraData r1 wc caches).2.1, (LoadExtraData r1 wc caches).2.2) :=
  loadExtraData_of_loaded r2 _ _ (loadExtraData_flag_of_ok r1 wc caches h)

/-- A healthy detail page: no 404 title, no login gate, no recaptcha, and
a parseable rating. -/
def pageOk : DetailPage :=
  { title := "My Show - Proxer.me", firstH3 := none, hasRecaptcha := false,
    detailsRows := [{ key := "Genres", value := "", genreTags := ["Action"],
                      seasonLinks := [] }],
    averageText := "4.3" }

/-- Retriever that succeeds with the healthy page for every entry. -/
def okRetriever : Media → Except String DetailPage := fun _ => .ok pageOk

/-- Retriever that always fails, standing in for a second call that
would hit the network and die. -/
def failRetriever : Media → Except String DetailPage := fun _ => .error "network down"

/-- One-entry category that has not been enriched yet. -/
def wcOne : WatchlistCategory :=
  ⟨[{ Title := "My Show", ProxerURL := "/info/296#top" }], false⟩

/-- C1 witness: after a concrete successful first call, the theorem
closes the second call with a failing retriever. -/
theorem loadExtraData_idempotent_witness :
    (LoadExtraData okRetriever wcOne [true]).1 = .ok ()
    ∧ LoadExtraData failRetriever (LoadExtraData okRetriever wcOne [true]).2.1
        (LoadExtraData okRetriever wcOne [true]).2.2
      = (.ok (), (LoadExtraData okRetriever wcOne [true]).2.1,
         (LoadExtraData okRetriever wcOne [true]).2.2) :=
  ⟨by decide, loadExtraData_idempotent okRetriever failRetriever wcOne [true] (by decide)⟩

/-- C4: a cache hit bypasses the fetch — a cache file that opens
successfully is returned directly with `query` (and hence the rate
limiter inside it) never invoked; an open failure other than "not found"
is returned as an error, again without fetching; only the "not found"
case invokes `query`; and `RetrieveAnimeRawData` on a prewarmed cache
behaves accordingly. -/
theorem cache_hit_bypasses_fetch :
    (∀ (c : String) (q : Except String String),
       retrieve (.found c) q = ⟨.ok c, false⟩)
    ∧ (∀ (e : String) (q : Except String String),
       retrieve (.failure e) q = ⟨.error e, false⟩)
    ∧ (∀ q : Except String String, (retrieve .notFound q).queried = true)
    ∧ (∀ (fs : String → OpenResult) (q : Except String String) (item : Media)
         (id c : String),
       getCacheIdentifier? item.ProxerURL = some id →
       fs (id ++ ".html") = .found c →
       RetrieveAnimeRawData fs q item = some ⟨.ok c, false⟩) := by
  refine ⟨fun c q => rfl, fun e q => rfl, fun q => ?_, fun fs q item id c h1 h2 => ?_⟩
  · cases q <;> rfl
  · simp [RetrieveAnimeRawData, h1, retrieve, h2]

/-- The cache directory for the C4 witness: only `296.html` exists. -/
def fsWith296 : String → OpenResult :=
  fun k => if k = "296.html" then .found "cached page" else .notFound

/-- C4 witness: the theorem applied to a prewarmed concrete cache; the
query argument is an error to make any accidental fetch visible. -/
theorem cache_hit_bypasses_fetch_witness :
    getCacheIdentifier? "/info/296#top" = some "296"
    ∧ fsWith296 ("296" ++ ".html") = .found "cached page"
    ∧ RetrieveAnimeRawData fsWith296 (.error "no network")
        { ProxerURL := "/info/296#top" } = some ⟨.ok "cached page", false⟩ :=
  ⟨by decide, by decide,
   cache_hit_bypasses_fetch.2.2.2 fsWith296 (.error "no network")
     { ProxerURL := "/info/296#top" } "296" "cached page" (by decide) (by decide)⟩

/-! ## Lemmas about identifier extraction -/

theorem takeWhile_append_of_all {p : Char → Bool} (ds rest : List Char)
    (hds : ds.all p = true) (hrest : rest.head?.any p = false) :
    (ds ++ rest).takeWhile p = ds := by
  induction ds with
  | nil =>
    cases rest with
    | nil => rfl
    | cons r t =>
      have hr : p r = false := by simpa using hrest
      simp [List.takeWhile_cons, hr]
  | cons d t ih =>
    rw [List.all_cons, Bool.and_eq_true] at hds
    simp [List.takeWhile_cons, hds.1, ih hds.2]

theorem matchInfoAt_append (ds rest : List Char) (hne : ds ≠ [])
    (hds : ds.all Char.isDigit = true)
    (hrest : rest.head?.any Char.isDigit = false) :
    matchInfoAt (infoPat ++ (ds ++ rest)) = some ds := by
  have hpre : infoPat.isPrefixOf (infoPat ++ (ds ++ rest)) = true :=
    List.isPrefixOf_iff_prefix.mpr (List.prefix_append _ _)
  have htw : ((infoPat ++ (ds ++ rest)).drop infoPat.length).takeWhile Char.isDigit
      = ds := by
    rw [List.drop_left]
    exact takeWhile_append_of_all ds rest hds hrest
  unfold matchInfoAt
  rw [if_pos hpre]
  dsimp only
  rw [htw, if_neg hne]

/-- C5: for a `proxerURL` that matches the anchored pattern
`^/info/(\d+).*` — i.e. one of the shape `/info/` ++ digits ++ rest with
the digit run maximal — `getCacheIdentifier` returns exactly the digits
of the first capture group. -/
theorem getCacheIdentifier_anchored (url : String) (ds rest : List Char)
    (hurl : url.data = infoPat ++ (ds ++ rest)) (hne : ds ≠ [])
    (hds : ds.all Char.isDigit = true)
    (hrest : rest.head?.any Char.isDigit = false) :
    getCacheIdentifier? url = some (String.mk ds) := by
  have hm := matchInfoAt_append ds rest hne hds hrest
  have hf : findInfo (infoPat ++ (ds ++ rest)) = some ds := by
    show findInfo ('/' :: ('i' :: 'n' :: 'f' :: 'o' :: '/' :: (ds ++ rest))) = some ds
    rw [findInfo]
    rw [show ('/' :: ('i' :: 'n' :: 'f' :: 'o' :: '/' :: (ds ++ rest)))
        = infoPat ++ (ds ++ rest) from rfl, hm]
  unfold getCacheIdentifier?
  rw [hurl, hf, Option.map_some']

/-- C5 witness: the theorem applied to the URL of the repository's own
test `Test_getCacheIdentifier`, `/info/296#top`, yielding "296". -/
theorem getCacheIdentifier_anchored_witness :
    "/info/296#top".data = infoPat ++ ("296".data ++ "#top".data)
    ∧ getCacheIdentifier? "/info/296#top" = some (String.mk "296".data) :=
  ⟨by decide,
   getCacheIdentifier_anchored "/info/296#top" "296".data "#top".data
     (by decide) (by decide) (by decide) (by decide)⟩

theorem findInfo_none (l : List Char)
    (h : ∀ d : Char, d.isDigit = true → ¬ List.IsInfix (infoPat ++ [d]) l) :
    findInfo l = none := by
  induction l with
  | nil => rfl
  | cons c rest ih =>
    have hm : matchInfoAt (c :: rest) = none := by
      cases hmm : matchInfoAt (c :: rest) with
      | none => rfl
      | some ds =>
        exfalso
        unfold matchInfoAt at hmm
        by_cases hp : infoPat.isPrefixOf (c :: rest) = true
        · rw [hp] at hmm
          simp only [if_true] at hmm
          obtain ⟨t, ht⟩ := List.isPrefixOf_iff_prefix.mp hp
          have hdrop : (c :: rest).drop infoPat.length = t := by
            rw [← ht, List.drop_left]
          rw [hdrop] at hmm
          cases t with
          | nil => simp at hmm
          | cons d t' =>
            by_cases hd : d.isDigit = true
            · refine h d hd ⟨[], t', ?_⟩
              simpa using ht
            · simp only [Bool.not_eq_true] at hd
              simp [List.takeWhile_cons, hd] at hmm
        · simp only [Bool.not_eq_true] at hp
          simp [hp] at hmm
    rw [findInfo, hm]
    exact ih (fun d hd hin => h d hd (List.infix_cons hin))

/-- C10: the source's pattern `/info/(\d+).*` is unanchored and the
`FindStringSubmatch` result is indexed without a `nil` check — on a URL
containing no `/info/<digit>` substring the submatch slice is `nil` and
the indexing panics (modelled as `none`), while a URL whose only
`/info/<digits>` occurrence sits at a non-zero offset still yields the
identifier, although the spec's anchored pattern would reject it. -/
theorem getCacheIdentifier_unanchored :
    (∀ url : String,
       (∀ d : Char, d.isDigit = true → ¬ List.IsInfix (infoPat ++ [d]) url.data) →
       getCacheIdentifier? url = none)
    ∧ getCacheIdentifier? "/x/info/296" = some "296" := by
  refine ⟨fun url h => ?_, by decide⟩
  unfold getCacheIdentifier?
  rw [findInfo_none url.data h, Option.map_none']

/-- C10 witness: no `/info/<digit>` substring fits inside a four-character
URL, so the model returns `none` (the Go code panics there). -/
theorem getCacheIdentifier_unanchored_witness :
    getCacheIdentifier? (String.mk ['/', 'a', 'b', 'c']) = none :=
  getCacheIdentifier_unanchored.1 (String.mk ['/', 'a', 'b', 'c']) (by
    intro d hd hin
    have hl := hin.length_le
    simp [infoPat] at hl)

/-! ## Lemmas about the profile parser's panics -/

/-- Did the computation end in a Go panic? -/
def POr.isPanic {α : Type} : POr α → Bool
  | .panic _ => true
  | .ok _ => false

theorem parseRow_panic_msg {r : Row} {m : String} (h : parseRow r = .panic m) :
    m = statusPanicMsg ∨ m = scanPanicMsg := by
  unfold parseRow at h
  cases hs : r.statusTitle with
  | none =>
    rw [hs] at h
    exact Or.inl (POr.panic.inj h).symm
  | some st =>
    rw [hs] at h
    cases hw : scanTwoNats r.countsText with
    | none =>
      rw [hw] at h
      exact Or.inr (POr.panic.inj h).symm
    | some p =>
      obtain ⟨w, cnt⟩ := p
      rw [hw] at h
      exact POr.noConfusion h

theorem parseRow_ok_status {r : Row} {a : Media} (h : parseRow r = .ok a) :
    r.statusTitle ≠ none := by
  intro hs
  unfold parseRow at h
  rw [hs] at h
  exact POr.noConfusion h

theorem parseRow_ok_scan {r : Row} {a : Media} (h : parseRow r = .ok a) :
    scanTwoNats r.countsText ≠ none := by
  intro hw
  unfold parseRow at h
  cases hs : r.statusTitle with
  | none => rw [hs] at h; exact POr.noConfusion h
  | some st => rw [hs, hw] at h; exact POr.noConfusion h

theorem parseRowsFrom_panics : ∀ (rows : List Row) (i0 : Nat),
    (∃ j, ∃ hj : j < rows.length, 2 ≤ i0 + j ∧
       ((rows.get ⟨j, hj⟩).statusTitle = none
        ∨ scanTwoNats (rows.get ⟨j, hj⟩).countsText = none)) →
    parseRowsFrom i0 rows = .panic statusPanicMsg
    ∨ parseRowsFrom i0 rows = .panic scanPanicMsg := by
  intro rows
  induction rows with
  | nil =>
    intro i0 h
    obtain ⟨j, hj, _⟩ := h
    exact absurd hj (by simp)
  | cons r rest ih =>
    intro i0 h
    obtain ⟨j, hj, hge, hbad⟩ := h
    by_cases hi : i0 < 2
    · rw [show parseRowsFrom i0 (r :: rest) = parseRowsFrom (i0 + 1) rest by
        simp [parseRowsFrom, hi]]
      cases j with
      | zero => omega
      | succ j' =>
        exact ih (i0 + 1)
          ⟨j', Nat.lt_of_succ_lt_succ (by simpa using hj), by omega, hbad⟩
    · have hred : parseRowsFrom i0 (r :: rest)
          = match parseRow r with
            | .panic m => .panic m
            | .ok a =>
              match parseRowsFrom (i0 + 1) rest with
              | .panic m => .panic m
              | .ok as => .ok (a :: as) := by
        simp [parseRowsFrom, hi]
      cases hp : parseRow r with
      | panic m =>
        rw [hred, hp]
        rcases parseRow_panic_msg hp with hm | hm
        · left; rw [hm]
        · right; rw [hm]
      | ok a =>
        have hj0 : j ≠ 0 := by
          intro h0
          subst h0
          rcases hbad with hb | hb
          · exact parseRow_ok_status hp hb
          · exact parseRow_ok_scan hp hb
        obtain ⟨j', rfl⟩ : ∃ j'', j = j'' + 1 := ⟨j - 1, by omega⟩
        have hrec := ih (i0 + 1)
          ⟨j', Nat.lt_of_succ_lt_succ (by simpa using hj), by omega, hbad⟩
        rw [hred, hp]
        rcases hrec with hm | hm
        · left; rw [hm]
        · right; rw [hm]

/-- C6 counterexample: on a concrete table whose third row lacks the
status attribute, `ParseProfileMediaTab` panics — it does not return a
parse error value to the caller. -/
theorem profile_malformed_row_cex :
    ParseProfileMediaTab (.ok
      ⟨[{ statusTitle := some "Airing", linkHref := "/info/1#top", linkText := "T",
          typeBase := "Animeserie", typeConcrete := none, countsText := "3 / 12" },
        { statusTitle := some "Airing", linkHref := "/info/1#top", linkText := "T",
          typeBase := "Animeserie", typeConcrete := none, countsText := "3 / 12" },
        { statusTitle := none, linkHref := "/info/2#top", linkText := "U",
          typeBase := "Animeserie", typeConcrete := none, countsText := "3 / 12" }],
       [], [], []⟩)
      = .panic statusPanicMsg := by decide

/-- C6 (amended): a data row (index ≥ 2) whose first cell's `<img>` has
no `title` attribute, or whose fifth cell's `<span>` text does not scan
as `%d / %d`, makes the profile parser panic — with the message of the
corresponding fatal condition — instead of returning a parse error to
the caller. -/
theorem profile_malformed_row_panics (rows : List Row) (i : Nat) (hi : 2 ≤ i)
    (hlen : i < rows.length)
    (hbad : (rows.get ⟨i, hlen⟩).statusTitle = none
            ∨ scanTwoNats (rows.get ⟨i, hlen⟩).countsText = none) :
    parseProfileTabMediaTable rows = .panic statusPanicMsg
    ∨ parseProfileTabMediaTable rows = .panic scanPanicMsg := by
  unfold parseProfileTabMediaTable
  rw [if_neg (by omega : ¬ rows.length < 2)]
  exact parseRowsFrom_panics rows 0 ⟨i, hlen, by omega, hbad⟩

/-- Well-formed filler row for the C6 witness. -/
def fillerRow : Row :=
  { statusTitle := some "Airing", linkHref := "/info/1#top", linkText := "T",
    typeBase := "Animeserie", typeConcrete := none, countsText := "3 / 12" }

/-- Row whose counts cell does not scan as `%d / %d`. -/
def badCountsRow : Row :=
  { statusTitle := some "Airing", linkHref := "/info/2#top", linkText := "U",
    typeBase := "Animeserie", typeConcrete := none, countsText := "? / ?" }

/-- C6 witness: the amended theorem applied at a concrete table whose
third row has an unscannable counts cell. -/
theorem profile_malformed_row_panics_witness :
    parseProfileTabMediaTable [fillerRow, fillerRow, badCountsRow]
        = .panic statusPanicMsg
    ∨ parseProfileTabMediaTable [fillerRow, fillerRow, badCountsRow]
        = .panic scanPanicMsg :=
  profile_malformed_row_panics [fillerRow, fillerRow, badCountsRow] 2
    (by decide) (by decide) (Or.inr (by decide))

/-- C9: with fewer than two extracted rows — in particular when an
anchor `a[name=stateN]` is missing or is not followed by a table, so the
selection is empty — `rows.Size()-2` is a negative `make` capacity and
the parse panics; consequently `ParseProfileMediaTab` panics on any
document one of whose four states has no rows, instead of returning an
empty `Watchlist` or a parse error. -/
theorem profile_tab_empty_rows_panics :
    (∀ rows : List Row, rows.length < 2 →
       parseProfileTabMediaTable rows = .panic makeslicePanicMsg)
    ∧ (∀ doc : ProfileDoc,
       doc.state0 = [] ∨ doc.state1 = [] ∨ doc.state2 = [] ∨ doc.state3 = [] →
       (ParseProfileMediaTab (.ok doc)).isPanic = true) := by
  have h1 : ∀ rows : List Row, rows.length < 2 →
      parseProfileTabMediaTable rows = .panic makeslicePanicMsg := by
    intro rows h
    unfold parseProfileTabMediaTable
    rw [if_pos h]
  refine ⟨h1, fun doc hdoc => ?_⟩
  simp only [ParseProfileMediaTab]
  rcases hdoc with he | he | he | he
  · rw [h1 doc.state0 (by rw [he]; simp)]; rfl
  · cases h0 : parseProfileTabMediaTable doc.state0 with
    | panic m => rfl
    | ok w => rw [h1 doc.state1 (by rw [he]; simp)]; rfl
  · cases h0 : parseProfileTabMediaTable doc.state0 with
    | panic m => rfl
    | ok w =>
      cases hs1 : parseProfileTabMediaTable doc.state1 with
      | panic m => rfl
      | ok c2 => rw [h1 doc.state2 (by rw [he]; simp)]; rfl
  · cases h0 : parseProfileTabMediaTable doc.state0 with
    | panic m => rfl
    | ok w =>
      cases hs1 : parseProfileTabMediaTable doc.state1 with
      | panic m => rfl
      | ok c2 =>
        cases hs2 : parseProfileTabMediaTable doc.state2 with
        | panic m => rfl
        | ok c3 => rw [h1 doc.state3 (by rw [he]; simp)]; rfl

/-- C9 witness: the theorem applied to the document in which every
anchor's selection is empty. -/
theorem profile_tab_empty_rows_panics_witness :
    (ParseProfileMediaTab (.ok ⟨[], [], [], []⟩)).isPanic = true :=
  profile_tab_empty_rows_panics.2 ⟨[], [], [], []⟩ (Or.inl rfl)

end Proxerscrape
